import Mathlib

/-!
# mysql-dump-obfuscator: a shallow embedding of `lib.go` and `obfuscate.go`

Go strings are Lean `String`s, a Go `error` is its message, a Go multi-value
return `(v, err)` is a pair `v × Option Error`, and a run-time panic (index out
of range) is the outer `none` of an `Option`.

The collaborators outside the repository are parameters of the model:
* `DB` answers `db.Query(text)` with a row stream (`Rows`) or an error, and
  `DB.QueryRowScan` is `db.QueryRow(text).Scan(...)` over it;
* `FS` is the file system seen through `os.Open`, `File.Stat`, `os.Create` and
  the writes of `template.Execute`;
* `Env` holds the clock readings and `path.Join`;
* `md5.Sum` is a parameter of the transforms of `obfuscate.go`.

Every function that talks to the database also returns the list of SQL
statements it sent, oldest first.
-/

namespace MysqlDump

/-- A Go `error`, identified by its message. -/
abbrev Error := String

/-- Equality of Go results can be computed. -/
instance instDecidableEqExcept {ε α : Type} [DecidableEq ε] [DecidableEq α] :
    DecidableEq (Except ε α)
  | .error a, .error b => if h : a = b then isTrue (by rw [h]) else isFalse (by intro hc; cases hc; exact h rfl)
  | .ok a, .ok b => if h : a = b then isTrue (by rw [h]) else isFalse (by intro hc; cases hc; exact h rfl)
  | .error _, .ok _ => isFalse (by intro hc; cases hc)
  | .ok _, .error _ => isFalse (by intro hc; cases hc)

/-! ## `database/sql` as used by the program -/

/-- Go `sql.NullString`. -/
structure NullString where
  String : String
  Valid : Bool
deriving DecidableEq, Repr

/-- One iteration of `for rows.Next()`: what `rows.Columns()` answers during the
iteration and the driver values of the current row (`none` is SQL NULL,
`some s` a value whose string form is `s`). -/
structure RowRead where
  Columns : Except Error (List String)
  values : List (Option String)
deriving DecidableEq

/-- Go `*sql.Rows`: the answer of `rows.Columns()` before the first `Next`,
the rows delivered while `rows.Next()` is true, `rows.Err()` once `Next` has
returned false, and the error `rows.Close()` returns. -/
structure Rows where
  Columns : Except Error (List String)
  rows : List RowRead
  Err : Option Error
  Close : Option Error
deriving DecidableEq

/-- Go `*sql.DB`, read-only during a dump: `db.Query(text)`. -/
structure DB where
  Query : String → Except Error Rows

/-- The error of `sql.ErrNoRows`. -/
def ErrNoRows : Error := "sql: no rows in result set"

/-- The error `Rows.Scan` reports when the number of destinations differs from
the number of values in the row. -/
def scanCountError (have_ want : Nat) : Error :=
  "sql: expected " ++ toString have_ ++ " destination arguments in Scan, not " ++ toString want

/-- `NullString.Scan(value)`: the `Scanner` used for a `*sql.NullString`
destination. -/
def scanNullString (value : Option String) : NullString :=
  match value with
  | none => { String := "", Valid := false }
  | some s => { String := s, Valid := true }

/-- Scanning into a `**sql.NullString` destination (`&data[i]` with
`data []*sql.NullString`): NULL stores the nil pointer, any other value a fresh
`NullString` filled by `scanNullString`. -/
def scanPtr (value : Option String) : Option NullString :=
  match value with
  | none => none
  | some s => some (scanNullString (some s))

/-- `rows.Scan(dest...)` with `n` destinations of type `**sql.NullString`. -/
def Rows.ScanPtrs (values : List (Option String)) (n : Nat) :
    Except Error (List (Option NullString)) :=
  if values.length = n then .ok (values.map scanPtr)
  else .error (scanCountError values.length n)

/-- `rows.Scan(&table)` with one `*sql.NullString` destination. -/
def Rows.Scan1 (values : List (Option String)) : Except Error NullString :=
  match values with
  | [v] => .ok (scanNullString v)
  | _ => .error (scanCountError values.length 1)

/-- `rows.Scan(&a, &b)` with two `*sql.NullString` destinations. -/
def Rows.Scan2 (values : List (Option String)) : Except Error (NullString × NullString) :=
  match values with
  | [a, b] => .ok (scanNullString a, scanNullString b)
  | _ => .error (scanCountError values.length 2)

/-- `db.QueryRow(text).Scan(dest...)`, with `scan` the `Rows.Scan` for the
destinations: the query error; else, when `Next` gives no first row, the error
of the stream or `ErrNoRows`; else the error of scanning the first row; else
the error of the closing `return r.rows.Close()`; else the scanned values. -/
def DB.QueryRowScan {α : Type} (db : DB) (text : String)
    (scan : List (Option String) → Except Error α) : Except Error α :=
  match db.Query text with
  | .error err => .error err
  | .ok rows =>
    match rows.rows with
    | [] => .error (rows.Err.getD ErrNoRows)
    | r :: _ =>
      match scan r.values with
      | .error err => .error err
      | .ok dest =>
        match rows.Close with
        | some err => .error err
        | none => .ok dest

/-- `db.QueryRow(text).Scan(&a)` with one `*sql.NullString` destination. -/
def DB.QueryRowScan1 (db : DB) (text : String) : Except Error NullString :=
  db.QueryRowScan text Rows.Scan1

/-- `db.QueryRow(text).Scan(&a, &b)` with two `*sql.NullString` destinations. -/
def DB.QueryRowScan2 (db : DB) (text : String) : Except Error (NullString × NullString) :=
  db.QueryRowScan text Rows.Scan2

/-! ## `lib.go`: data model -/

/-- Go `type table struct`. -/
structure table where
  Name : String
  SQL : String
  Values : String
deriving DecidableEq, Repr

/-- Go `type dump struct`. -/
structure dump where
  DumpVersion : String
  ServerVersion : String
  Tables : List table
  CompleteTime : String
deriving DecidableEq, Repr

/-- Go `const version`. -/
def version : String := "0.2.3"

/-- Go `map[string]func(data string) string`, the obfuscation of one table.
A key that is absent answers `none`; a transform is a function of its argument
alone that returns. -/
abbrev ColumnMap := String → Option (String → String)

/-- Go `map[string]map[string]func(data string) string`. Indexing with an
absent table name gives the nil map, here `none`. -/
abbrev ObfuscateMap := String → Option ColumnMap

/-! ## `lib.go`: `createTableValues` -/

/-- Lines 276-286: the value of `value` after the obfuscation step for index
`key`, with `columns` the list re-read inside the row loop. `none` is the panic
of `columns[key]` out of range. -/
def obfuscateValue (obfuscate : Option ColumnMap) (columns : List String) (key : Nat)
    (value : Option NullString) : Option (Option NullString) :=
  match obfuscate with
  | none => some value
  | some m =>
    match columns[key]? with
    | none => none
    | some column =>
      match m column with
      | some c =>
        match value with
        | some v =>
          if v.Valid then some (some { String := c v.String, Valid := true })
          else some value
        | none => some value
      | none => some value

/-- Lines 288-292: the text stored in `dataStrings[key]`. -/
def cellText (value : Option NullString) : String :=
  match value with
  | some v => if v.Valid then "'" ++ v.String ++ "'" else "null"
  | none => "null"

/-- The loop `for key, value := range data` (lines 275-293), from index `key`
on: `dataStrings` is the slice made with `len(columns)` entries. `none` is an
index out of range. -/
def cellLoop (obfuscate : Option ColumnMap) (columns : List String) :
    Nat → List (Option NullString) → List String → Option (List String)
  | _, [], dataStrings => some dataStrings
  | key, value :: rest, dataStrings =>
    match obfuscateValue obfuscate columns key value with
    | none => none
    | some value =>
      if key < dataStrings.length then
        cellLoop obfuscate columns (key + 1) rest (dataStrings.set key (cellText value))
      else none

/-- The slice `dataStrings` at the end of one iteration of the row loop:
`make([]string, len(columns))` filled by the loop over `data`. -/
def rowStrings (obfuscate : Option ColumnMap) (columns : List String)
    (data : List (Option NullString)) : Option (List String) :=
  cellLoop obfuscate columns 0 data (List.replicate columns.length "")

/-- Go `strings.Join`. -/
def stringsJoin (elems : List String) (sep : String) : String :=
  sep.intercalate elems

/-- The loop `for rows.Next()` of `createTableValues` (lines 254-296): `n` is
`len(columns)` of the list read before the loop. `some (.error err)` is an
early `return "", err`, `some (.ok dataText)` the slice after the last row. -/
def rowLoop (obfuscate : Option ColumnMap) (n : Nat) :
    List RowRead → List String → Option (Except Error (List String))
  | [], dataText => some (.ok dataText)
  | r :: rest, dataText =>
    match r.Columns with
    | .error err => some (.error err)
    | .ok columns =>
      match Rows.ScanPtrs r.values n with
      | .error err => some (.error err)
      | .ok data =>
        match rowStrings obfuscate columns data with
        | none => none
        | some dataStrings =>
          rowLoop obfuscate n rest (dataText ++ ["(" ++ stringsJoin dataStrings "," ++ ")"])

/-- The statement `createTableValues` sends. -/
def selectText (name : String) : String := "SELECT * FROM `" ++ name ++ "`"

/-- Go `createTableValues`: the returned pair (or a panic) and the statements
sent. -/
def createTableValues (db : DB) (name : String) (obfuscate : Option ColumnMap) :
    Option (String × Option Error) × List String :=
  (match db.Query (selectText name) with
   | .error err => some ("", some err)
   | .ok rows =>
     match rows.Columns with
     | .error err => some ("", some err)
     | .ok columns =>
       if columns.length = 0 then
         some ("", some ("no columns in table " ++ name ++ "."))
       else
         match rowLoop obfuscate columns.length rows.rows [] with
         | none => none
         | some (.error err) => some ("", some err)
         | some (.ok dataText) => some (stringsJoin dataText ",", rows.Err),
   [selectText name])

/-! ## `lib.go`: `createTableSQL`, `createTable`, `getServerVersion`, `getTables` -/

/-- The statement `createTableSQL` sends. -/
def showCreateText (name : String) : String := "SHOW CREATE TABLE `" ++ name ++ "`"

/-- The error of `createTableSQL` when the server answers for another table. -/
def mismatchError : Error := "returned table is not the same as requested table"

/-- Go `createTableSQL`. -/
def createTableSQL (db : DB) (name : String) : (String × Option Error) × List String :=
  (match db.QueryRowScan2 (showCreateText name) with
   | .error err => ("", some err)
   | .ok (tableReturn, tableSql) =>
     if tableReturn.String != name then ("", some mismatchError)
     else (tableSql.String, none),
   [showCreateText name])

/-- Go `createTable`. The Go function returns `(nil, err)` with a non-nil `err`
or `(t, nil)` with a non-nil `t`: `.error err` and `.ok t`. -/
def createTable (db : DB) (name : String) (obfuscate : Option ColumnMap) :
    Option (Except Error table) × List String :=
  match createTableSQL db name with
  | ((_, some err), q) => (some (.error err), q)
  | ((sql, none), q) =>
    match createTableValues db name obfuscate with
    | (none, q2) => (none, q ++ q2)
    | (some (_, some err), q2) => (some (.error err), q ++ q2)
    | (some (values, none), q2) =>
      (some (.ok { Name := name, SQL := sql, Values := values }), q ++ q2)

/-- The statement `getServerVersion` sends. -/
def versionText : String := "SELECT version()"

/-- Go `getServerVersion`. -/
def getServerVersion (db : DB) : (String × Option Error) × List String :=
  (match db.QueryRowScan1 versionText with
   | .error err => ("", some err)
   | .ok serverVersion => (serverVersion.String, none),
   [versionText])

/-- The loop `for rows.Next()` of `getTables`, ending in
`return tables, rows.Err()`. -/
def getTablesLoop (rowsErr : Option Error) :
    List RowRead → List String → List String × Option Error
  | [], tables => (tables, rowsErr)
  | r :: rest, tables =>
    match Rows.Scan1 r.values with
    | .error err => (tables, some err)
    | .ok t => getTablesLoop rowsErr rest (tables ++ [t.String])

/-- Go `getTables`. -/
def getTables (db : DB) : (List String × Option Error) × List String :=
  (match db.Query "SHOW TABLES" with
   | .error err => ([], some err)
   | .ok rows => getTablesLoop rows.Err rows.rows [],
   ["SHOW TABLES"])

/-! ## `lib.go`: the template

`text/template` keeps the text between two actions verbatim (the template has
no trim marker), prints a string field as it is, takes the branch of
`{{ if .F }}` for a string field exactly when the string is not empty, and runs
the body of `{{range .F}}` once per element, in order, with the element as dot.
-/

/-- A text node or a field action `{{ .F }}` of the template, for dot of type
`α`. -/
inductive Leaf (α : Type) where
  | text (s : String)
  | field (get : α → String)

/-- A node inside `{{range .Tables}}`: a leaf or `{{ if .F }} body {{ end }}`. -/
inductive Action (α : Type) where
  | leaf (l : Leaf α)
  | ifField (get : α → String) (body : List (Leaf α))

/-- A node at the top of the template: a leaf or
`{{range .F}} body {{ end }}`. -/
inductive Node where
  | leaf (l : Leaf dump)
  | range (get : dump → List table) (body : List (Action table))

/-- Executing a leaf. -/
def Leaf.exec {α : Type} (dot : α) : Leaf α → String
  | .text s => s
  | .field get => get dot

/-- Executing a node of a range body. -/
def Action.exec {α : Type} (dot : α) : Action α → String
  | .leaf l => l.exec dot
  | .ifField get body =>
    if get dot = "" then "" else String.join (body.map (Leaf.exec dot))

/-- Executing a top node. -/
def Node.exec (dot : dump) : Node → String
  | .leaf l => l.exec dot
  | .range get body =>
    String.join ((get dot).map fun t => String.join (body.map (Action.exec t)))

/-- The body of `{{range .Tables}}` in Go `const tmpl` (lines 102-121). -/
def tmplTable : List (Action table) :=
  [ .leaf (.text "\n--\n-- Table structure for table "),
    .leaf (.field table.Name),
    .leaf (.text "\n--\nDROP TABLE IF EXISTS "),
    .leaf (.field table.Name),
    .leaf (.text ";\n/*!40101 SET @saved_cs_client     = @@character_set_client */;\n/*!40101 SET character_set_client = utf8 */;\n"),
    .leaf (.field table.SQL),
    .leaf (.text ";\n/*!40101 SET character_set_client = @saved_cs_client */;\n--\n-- Dumping data for table "),
    .leaf (.field table.Name),
    .leaf (.text "\n--\nLOCK TABLES "),
    .leaf (.field table.Name),
    .leaf (.text " WRITE;\n/*!40000 ALTER TABLE "),
    .leaf (.field table.Name),
    .leaf (.text " DISABLE KEYS */;\n"),
    .ifField table.Values
      [ .text "\nINSERT INTO ",
        .field table.Name,
        .text " VALUES ",
        .field table.Values,
        .text ";\n" ],
    .leaf (.text "\n/*!40000 ALTER TABLE "),
    .leaf (.field table.Name),
    .leaf (.text " ENABLE KEYS */;\nUNLOCK TABLES;\n") ]

/-- Go `const tmpl` (lines 88-123). -/
def tmpl : List Node :=
  [ .leaf (.text "-- Go SQL Dump "),
    .leaf (.field dump.DumpVersion),
    .leaf (.text "\n--\n-- ------------------------------------------------------\n-- Server version\t"),
    .leaf (.field dump.ServerVersion),
    .leaf (.text "\n/*!40101 SET @OLD_CHARACTER_SET_CLIENT=@@CHARACTER_SET_CLIENT */;\n/*!40101 SET @OLD_CHARACTER_SET_RESULTS=@@CHARACTER_SET_RESULTS */;\n/*!40101 SET @OLD_COLLATION_CONNECTION=@@COLLATION_CONNECTION */;\n/*!40101 SET NAMES utf8 */;\n/*!40103 SET @OLD_TIME_ZONE=@@TIME_ZONE */;\n/*!40103 SET TIME_ZONE='+00:00' */;\n/*!40014 SET @OLD_UNIQUE_CHECKS=@@UNIQUE_CHECKS, UNIQUE_CHECKS=0 */;\n/*!40014 SET @OLD_FOREIGN_KEY_CHECKS=@@FOREIGN_KEY_CHECKS, FOREIGN_KEY_CHECKS=0 */;\n/*!40101 SET @OLD_SQL_MODE=@@SQL_MODE, SQL_MODE='NO_AUTO_VALUE_ON_ZERO' */;\n/*!40111 SET @OLD_SQL_NOTES=@@SQL_NOTES, SQL_NOTES=0 */;\n"),
    .range dump.Tables tmplTable,
    .leaf (.text "\n-- Dump completed on "),
    .leaf (.field dump.CompleteTime),
    .leaf (.text "\n") ]

/-- What `t.Execute(f, data)` writes for the parsed `tmpl`. -/
def Execute (data : dump) : String :=
  String.join (tmpl.map (Node.exec data))

/-- The block one table contributes to the document. -/
def tableBlock (t : table) : String :=
  String.join (tmplTable.map (Action.exec t))

/-! ## The file system and the clock -/

/-- A file system entry: its content and whether it is a directory (what
`os.FileInfo.Mode()` tells the program). -/
structure FileInfo where
  content : String
  IsDir : Bool
deriving DecidableEq, Repr

/-- The file system as the program sees it: the entry at each path, and for
each path the error, if any, with which `os.Open`, `File.Stat` and `os.Create`
fail there; `writeErr p = some (n, err)` says that writing to the file created
at `p` fails with `err` once `n` characters are on disk. -/
structure FS where
  files : String → Option FileInfo
  openErr : String → Option Error
  statErr : String → Option Error
  createErr : String → Option Error
  writeErr : String → Option (Nat × Error)

/-- Go `os.Open(p)`: fails when nothing is at `p` or when the entry cannot be
opened for reading. -/
def osOpen (fs : FS) (p : String) : Except Error FileInfo :=
  match fs.files p with
  | none => .error ("open " ++ p ++ ": no such file or directory")
  | some f =>
    match fs.openErr p with
    | some err => .error err
    | none => .ok f

/-- Go `exists`. -/
def «exists» (fs : FS) (p : String) : Bool × Option FileInfo :=
  match osOpen fs p with
  | .error _ => (false, none)
  | .ok f =>
    match fs.statErr p with
    | some _ => (false, none)
    | none => (true, some f)

/-- Go `isFile`. -/
def isFile (fs : FS) (p : String) : Bool :=
  match «exists» fs p with
  | (true, some fi) => !fi.IsDir
  | _ => false

/-- Go `isDir`. -/
def isDir (fs : FS) (p : String) : Bool :=
  match «exists» fs p with
  | (true, some fi) => fi.IsDir
  | _ => false

/-- Go `os.Create(p)`: on success the entry at `p` is an empty regular file. -/
def osCreate (fs : FS) (p : String) : Option Error × FS :=
  match fs.createErr p with
  | some err => (some err, fs)
  | none =>
    (none, { fs with files := fun q => if q = p then some { content := "", IsDir := false }
                                       else fs.files q })

/-- What `t.Execute(f, data)` does to the file just created at `p` when it
renders `text`: the nodes are written one after the other, so on success the
file holds `text` and on a failing write it holds the part of `text` written
before the failure. -/
def fileWrite (fs : FS) (p : String) (text : String) : Option Error × FS :=
  match fs.writeErr p with
  | some (n, err) =>
    (some err,
     { fs with files := fun q => if q = p then some { content := String.mk (text.data.take n),
                                                       IsDir := false }
                                 else fs.files q })
  | none =>
    (none, { fs with files := fun q => if q = p then some { content := text, IsDir := false }
                                       else fs.files q })

/-- What the program reads from outside: `time.Now().Format(layout)` at the
start of `Dump`, `time.Now().String()` after the table loop, and `path.Join`. -/
structure Env where
  nowFormat : String → String
  nowString : String
  pathJoin : String → String → String

/-! ## `lib.go`: `Dumper` -/

/-- Go `type Dumper struct`. -/
structure Dumper where
  db : DB
  format : String
  dir : String

/-- Go `Register`. -/
def Register (fs : FS) (db : DB) (dir format : String) : Option Dumper × Option Error :=
  if !isDir fs dir then (none, some "invalid directory")
  else (some { db := db, format := format, dir := dir }, none)

/-- The loop `for _, name := range tables` of `Dump` (lines 157-163), with
`data.Tables` as accumulator: `some (.error err)` is `return p, err`. -/
def tableLoop (db : DB) (obfuscate : ObfuscateMap) :
    List String → List table → Option (Except Error (List table)) × List String
  | [], tables => (some (.ok tables), [])
  | name :: rest, tables =>
    match createTable db name (obfuscate name) with
    | (none, q) => (none, q)
    | (some (.error err), q) => (some (.error err), q)
    | (some (.ok t), q) =>
      let r := tableLoop db obfuscate rest (tables ++ [t])
      (r.1, q ++ r.2)

/-- The result of running `Dump`: the returned pair (`none` for a panic), the
file system afterwards, the SQL statements sent, and whether the template was
executed. -/
structure Outcome where
  ret : Option (String × Option Error)
  fs : FS
  queries : List String
  executed : Bool

/-- The error of `Dump` when the output file is already there. -/
def alreadyExistsError (name : String) : Error := "Dump '" ++ name ++ "' already exists."

/-- Line 126: `name := time.Now().Format(d.format)`. -/
def dumpName (env : Env) (d : Dumper) : String := env.nowFormat d.format

/-- Line 127: `p := path.Join(d.dir, name+".sql")`. -/
def dumpPath (env : Env) (d : Dumper) : String := env.pathJoin d.dir (dumpName env d ++ ".sql")

/-- Go `(*Dumper).Dump`. The template is a constant that parses, so the error
branch after `Parse` is never taken; the deferred `f.Close()` leaves the file as
it is. -/
def Dumper.Dump (env : Env) (d : Dumper) (obfuscate : ObfuscateMap) (fs : FS) : Outcome :=
  let name := dumpName env d
  let p := dumpPath env d
  if («exists» fs p).1 then
    { ret := some (p, some (alreadyExistsError name)), fs := fs, queries := [], executed := false }
  else
    match osCreate fs p with
    | (some err, fs1) => { ret := some (p, some err), fs := fs1, queries := [], executed := false }
    | (none, fs1) =>
      match getServerVersion d.db with
      | ((_, some err), q1) =>
        { ret := some (p, some err), fs := fs1, queries := q1, executed := false }
      | ((serverVersion, none), q1) =>
        match getTables d.db with
        | ((_, some err), q2) =>
          { ret := some (p, some err), fs := fs1, queries := q1 ++ q2, executed := false }
        | ((tables, none), q2) =>
          match tableLoop d.db obfuscate tables [] with
          | (none, q3) => { ret := none, fs := fs1, queries := q1 ++ q2 ++ q3, executed := false }
          | (some (.error err), q3) =>
            { ret := some (p, some err), fs := fs1, queries := q1 ++ q2 ++ q3, executed := false }
          | (some (.ok ts), q3) =>
            let data : dump :=
              { DumpVersion := version, ServerVersion := serverVersion, Tables := ts,
                CompleteTime := env.nowString }
            match fileWrite fs1 p (Execute data) with
            | (some err, fs2) =>
              { ret := some (p, some err), fs := fs2, queries := q1 ++ q2 ++ q3, executed := true }
            | (none, fs2) =>
              { ret := some (p, none), fs := fs2, queries := q1 ++ q2 ++ q3, executed := true }

/-! ## `obfuscate.go` -/

/-- Go `md5.Sum`: a function into `[16]byte`. -/
structure Md5 where
  Sum : String → List Nat
  length_Sum : ∀ data, (Sum data).length = 16
  lt_Sum : ∀ data, ∀ b ∈ Sum data, b < 256

/-- The lower-case hexadecimal digit of `n < 16`. -/
def hexDigit (n : Nat) : Char :=
  "0123456789abcdef".data.getD n '0'

/-- Go `fmt.Sprintf("%x", hash)` for a byte array: two lower-case hexadecimal
digits per byte, high digit first, no separator. -/
def sprintfHex (hash : List Nat) : String :=
  String.mk (hash.flatMap fun b => [hexDigit (b / 16), hexDigit (b % 16)])

/-- Go `obfuscateMD5`. -/
def obfuscateMD5 (md5 : Md5) (data : String) : String :=
  sprintfHex (md5.Sum data)

/-- Go `s[:n]`: the first `n` bytes of `s`, a panic when `s` has fewer. -/
def sliceTo (s : String) (n : Nat) : Option String :=
  if n ≤ s.utf8ByteSize then some (s.extract 0 ⟨n⟩) else none

/-- Go `obfuscateEmail`; `none` is the panic of a slice out of range. -/
def obfuscateEmail (md5 : Md5) (data : String) : Option String :=
  match sliceTo (obfuscateMD5 md5 data) 16 with
  | none => none
  | some head => some (head ++ "@google.com")

/-! ## The cell literal of the specification -/

/-- The specification's `encode` (section 4.1), in its words: a null value is
the text `null` and no transform is applied; otherwise the raw string, replaced
by its transform when one is registered for the column, between single
quotes. -/
def encode (column : String) (value : Option NullString) (obfuscate : Option ColumnMap) :
    String :=
  match value with
  | none => "null"
  | some v =>
    if v.Valid then
      match obfuscate.bind (fun m => m column) with
      | some t => "'" ++ t v.String ++ "'"
      | none => "'" ++ v.String ++ "'"
    else "null"

/-- The specification's tuple of one row (section 3): the cell literals of the
row, one per column and in column order, joined by `,` between parentheses. -/
def rowTuple (obfuscate : Option ColumnMap) (columns : List String)
    (values : List (Option String)) : String :=
  "(" ++ stringsJoin (List.zipWith (fun c v => encode c v obfuscate) columns
    (values.map scanPtr)) "," ++ ")"

/-- The specification's values fragment (section 3): the tuples of the rows, in
row-fetch order, joined by `,`. -/
def valuesFragment (obfuscate : Option ColumnMap) (columns : List String)
    (rows : List RowRead) : String :=
  stringsJoin (rows.map fun r => rowTuple obfuscate columns r.values) ","

/-- A row stream that is read without error by `createTableValues`: the column
list is there, each row answers the same column list again and scans into one
destination per column, and the stream ends without error. -/
def Rows.ReadsWell (rows : Rows) (columns : List String) : Prop :=
  rows.Columns = .ok columns ∧
  (∀ r ∈ rows.rows, r.Columns = .ok columns ∧
    ∃ data, Rows.ScanPtrs r.values columns.length = .ok data) ∧
  rows.Err = none

/-! ## The document of the specification (section 6) -/

/-- The lines of a table block up to `LOCK TABLES`. -/
def blockHead (t : table) : String :=
  "\n--\n-- Table structure for table " ++ t.Name ++ "\n--\nDROP TABLE IF EXISTS " ++ t.Name
    ++ ";\n/*!40101 SET @saved_cs_client     = @@character_set_client */;\n/*!40101 SET character_set_client = utf8 */;\n"
    ++ t.SQL
    ++ ";\n/*!40101 SET character_set_client = @saved_cs_client */;\n--\n-- Dumping data for table "
    ++ t.Name ++ "\n--\nLOCK TABLES " ++ t.Name ++ " WRITE;\n"

/-- The `DISABLE KEYS` line of a table block. -/
def disableKeysLine (t : table) : String :=
  "/*!40000 ALTER TABLE " ++ t.Name ++ " DISABLE KEYS */;\n"

/-- The `ENABLE KEYS` line of a table block. -/
def enableKeysLine (t : table) : String :=
  "/*!40000 ALTER TABLE " ++ t.Name ++ " ENABLE KEYS */;\n"

/-- The `INSERT` line of a table block. -/
def insertLine (t : table) : String :=
  "INSERT INTO " ++ t.Name ++ " VALUES " ++ t.Values ++ ";\n"

/-- The header of the document: the two version lines and the fixed preamble. -/
def docHead (dumpVersion serverVersion : String) : String :=
  "-- Go SQL Dump " ++ dumpVersion
    ++ "\n--\n-- ------------------------------------------------------\n-- Server version\t"
    ++ serverVersion
    ++ "\n/*!40101 SET @OLD_CHARACTER_SET_CLIENT=@@CHARACTER_SET_CLIENT */;\n/*!40101 SET @OLD_CHARACTER_SET_RESULTS=@@CHARACTER_SET_RESULTS */;\n/*!40101 SET @OLD_COLLATION_CONNECTION=@@COLLATION_CONNECTION */;\n/*!40101 SET NAMES utf8 */;\n/*!40103 SET @OLD_TIME_ZONE=@@TIME_ZONE */;\n/*!40103 SET TIME_ZONE='+00:00' */;\n/*!40014 SET @OLD_UNIQUE_CHECKS=@@UNIQUE_CHECKS, UNIQUE_CHECKS=0 */;\n/*!40014 SET @OLD_FOREIGN_KEY_CHECKS=@@FOREIGN_KEY_CHECKS, FOREIGN_KEY_CHECKS=0 */;\n/*!40101 SET @OLD_SQL_MODE=@@SQL_MODE, SQL_MODE='NO_AUTO_VALUE_ON_ZERO' */;\n/*!40111 SET @OLD_SQL_NOTES=@@SQL_NOTES, SQL_NOTES=0 */;\n"

/-- The footer of the document. -/
def docFoot (completeTime : String) : String :=
  "\n-- Dump completed on " ++ completeTime ++ "\n"

/-! ## Concrete databases, used to run the model -/

/-- A table of a concrete database: name, DDL, column names and rows. -/
structure SampleTable where
  name : String
  ddl : String
  columns : List String
  rows : List (List (Option String))

/-- A row stream over `columns` delivering `rows` and closing without error. -/
def sampleRows (columns : List String) (rows : List (List (Option String))) : Rows :=
  { Columns := .ok columns,
    rows := rows.map fun values => { Columns := .ok columns, values := values },
    Err := none,
    Close := none }

/-- A server holding `tables`, with version `serverVersion` (`none` is a NULL
version). The catalog lists the tables in the order of `tables`. -/
def sampleDB (serverVersion : Option String) (tables : List SampleTable) : DB where
  Query text :=
    if text = "SELECT version()" then .ok (sampleRows ["version()"] [[serverVersion]])
    else if text = "SHOW TABLES" then
      .ok (sampleRows ["Tables_in_app"] (tables.map fun t => [some t.name]))
    else
      match tables.find? fun t => text = showCreateText t.name with
      | some t => .ok (sampleRows ["Table", "Create Table"] [[some t.name, some t.ddl]])
      | none =>
        match tables.find? fun t => text = selectText t.name with
        | some t => .ok (sampleRows t.columns t.rows)
        | none => .error ("Error 1046: No database selected")

/-- The database of the end-to-end example of the specification: `user(id,
email)` with the row `(1, "a@x.com")` and `empty_table(id)` without rows. -/
def exampleDB : DB :=
  sampleDB (some "8.0.36")
    [ { name := "user", ddl := "CREATE TABLE `user` (id int, email text)",
        columns := ["id", "email"], rows := [[some "1", some "a@x.com"]] },
      { name := "empty_table", ddl := "CREATE TABLE `empty_table` (id int)",
        columns := ["id"], rows := [] } ]

/-- An obfuscation map transforming `user.email` with `f` and nothing else. -/
def exampleObfuscate (f : String → String) : ObfuscateMap :=
  fun t => if t = "user" then some (fun c => if c = "email" then some f else none) else none

/-- A clock stuck at one instant and a `path.Join` for clean arguments. -/
def exampleEnv : Env :=
  { nowFormat := fun _ => "app-2024.01.02_03.04.05",
    nowString := "2024-01-02 03:04:06 +0000 UTC",
    pathJoin := fun dir file => dir ++ "/" ++ file }

/-- A file system holding the directory `dumps` and nothing else, where every
call succeeds. -/
def exampleFS : FS :=
  { files := fun q => if q = "dumps" then some { content := "", IsDir := true } else none,
    openErr := fun _ => none,
    statErr := fun _ => none,
    createErr := fun _ => none,
    writeErr := fun _ => none }

/-- The dumper `main` registers, over `db`. -/
def exampleDumper (db : DB) : Dumper :=
  { db := db, format := "app-2006.01.02_15.04.05", dir := "dumps" }

/-- The path `Dump` computes in the concrete runs. -/
def examplePath : String := "dumps/app-2024.01.02_03.04.05.sql"

/-- A file system where the output file of the concrete runs is already there
but cannot be opened by the user running the dump (mode 000): `os.Open` and
`os.Create` both fail with a permission error. -/
def unreadableFS : FS :=
  { files := fun q =>
      if q = "dumps" then some { content := "", IsDir := true }
      else if q = examplePath then some { content := "-- an older dump\n", IsDir := false }
      else none,
    openErr := fun q =>
      if q = examplePath then some ("open " ++ examplePath ++ ": permission denied") else none,
    statErr := fun _ => none,
    createErr := fun q =>
      if q = examplePath then some ("open " ++ examplePath ++ ": permission denied") else none,
    writeErr := fun _ => none }

/-- A file system where the output file of the concrete runs is already there
and readable. -/
def occupiedFS : FS :=
  { exampleFS with
    files := fun q =>
      if q = "dumps" then some { content := "", IsDir := true }
      else if q = examplePath then some { content := "-- an older dump\n", IsDir := false }
      else none }

/-- The example database behind a connection on which `SELECT version()`
fails. -/
def brokenVersionDB : DB where
  Query text :=
    if text = "SELECT version()" then .error "driver: bad connection"
    else exampleDB.Query text

/-- A database whose catalog lists `zebra` before `alpha`. -/
def zebraDB : DB :=
  sampleDB (some "8.0.36")
    [ { name := "zebra", ddl := "CREATE TABLE `zebra` (id int)", columns := ["id"],
        rows := [[some "7"]] },
      { name := "alpha", ddl := "CREATE TABLE `alpha` (id int)", columns := ["id"],
        rows := [] } ]

/-- A database whose server answers `SHOW CREATE TABLE` for `user` with the
definition of another table. -/
def mismatchDB : DB where
  Query text :=
    if text = "SHOW CREATE TABLE `user`" then
      .ok (sampleRows ["Table", "Create Table"]
        [[some "user_old", some "CREATE TABLE `user_old` (id int)"]])
    else exampleDB.Query text

/-- The record of `user` in the end-to-end example, `f` transforming
`user.email`. -/
def exampleUser (f : String → String) : table :=
  { Name := "user", SQL := "CREATE TABLE `user` (id int, email text)",
    Values := "('1','" ++ f "a@x.com" ++ "')" }

/-- The record of `empty_table` in the end-to-end example. -/
def exampleEmpty : table :=
  { Name := "empty_table", SQL := "CREATE TABLE `empty_table` (id int)", Values := "" }

/-- The single quote that delimits a cell literal. -/
def quote : Char := Char.ofNat 39

/-- A stand-in for `md5.Sum` that answers the digest of the empty input
whatever the input. -/
def emptyDigestMd5 : Md5 where
  Sum _ := [0xd4, 0x1d, 0x8c, 0xd9, 0x8f, 0x00, 0xb2, 0x04,
            0xe9, 0x80, 0x09, 0x98, 0xec, 0xf8, 0x42, 0x7e]
  length_Sum _ := rfl
  lt_Sum _ := by
    show ∀ b ∈ [0xd4, 0x1d, 0x8c, 0xd9, 0x8f, 0x00, 0xb2, 0x04,
                0xe9, 0x80, 0x09, 0x98, 0xec, 0xf8, 0x42, 0x7e], b < 256
    decide

/-- A transform that hides its input. -/
def redact : String → String := fun _ => "redacted"

/-- The example database with a third table `orders`, on a server where reading
the rows of `empty_table` fails. -/
def failingDB : DB where
  Query text :=
    if text = "SELECT * FROM `empty_table`" then .error "Error 1146: Table 'app.empty_table' doesn't exist"
    else
      (sampleDB (some "8.0.36")
        [ { name := "user", ddl := "CREATE TABLE `user` (id int, email text)",
            columns := ["id", "email"], rows := [[some "1", some "a@x.com"]] },
          { name := "empty_table", ddl := "CREATE TABLE `empty_table` (id int)",
            columns := ["id"], rows := [] },
          { name := "orders", ddl := "CREATE TABLE `orders` (id int)",
            columns := ["id"], rows := [[some "10"]] } ]).Query text

/-- A database with two tables that both have a column `email`. -/
def twoEmailDB : DB :=
  sampleDB (some "8.0.36")
    [ { name := "user", ddl := "CREATE TABLE `user` (email text)",
        columns := ["email"], rows := [[some "a@x.com"]] },
      { name := "customer", ddl := "CREATE TABLE `customer` (email text)",
        columns := ["email"], rows := [[some "b@y.com"]] } ]

/-- The example database on a server that reports a NULL version. -/
def nullVersionDB : DB :=
  sampleDB none
    [ { name := "user", ddl := "CREATE TABLE `user` (id int, email text)",
        columns := ["id", "email"], rows := [[some "1", some "a@x.com"]] } ]

/-- A server that reports a NULL version on a connection where closing the row
after the scan fails. -/
def closeFailingDB : DB where
  Query text :=
    if text = "SELECT version()" then
      .ok { sampleRows ["version()"] [[none]] with Close := some "driver: bad connection" }
    else exampleDB.Query text

/-! ## Lemmas on `createTableValues` -/

theorem cellLoop_append (obfuscate : Option ColumnMap) (data : List (Option NullString)) :
    ∀ (cpre cmid cpost : List String) (pre mid post : List String),
      cpre.length = pre.length → cmid.length = data.length → mid.length = data.length →
      cellLoop obfuscate (cpre ++ cmid ++ cpost) pre.length data (pre ++ mid ++ post)
        = some (pre ++ List.zipWith (fun c v => encode c v obfuscate) cmid data ++ post) := by
  induction data with
  | nil =>
    intro cpre cmid cpost pre mid post _ h2 h3
    have hm : mid = [] := List.length_eq_zero.mp h3
    have hc : cmid = [] := List.length_eq_zero.mp h2
    subst hm; subst hc
    simp [cellLoop]
  | cons value rest ih =>
    intro cpre cmid cpost pre mid post h1 h2 h3
    match cmid, mid, h2, h3 with
    | c :: cmid, x :: mid, h2, h3 =>
      have hcol : (cpre ++ (c :: cmid) ++ cpost)[pre.length]? = some c := by
        rw [List.append_assoc, List.getElem?_append_right (by omega), h1]
        simp
      have hset : (pre ++ (x :: mid) ++ post).set pre.length (encode c value obfuscate)
          = (pre ++ [encode c value obfuscate]) ++ mid ++ post := by
        simp [List.set_append]
      have hcs : cpre ++ (c :: cmid) ++ cpost = (cpre ++ [c]) ++ cmid ++ cpost := by simp
      have hlt : pre.length < (pre ++ (x :: mid) ++ post).length := by simp
      have hval : obfuscateValue obfuscate (cpre ++ (c :: cmid) ++ cpost) pre.length value
          = some (obfuscateValue obfuscate (cpre ++ (c :: cmid) ++ cpost) pre.length value).get!
          ∧ cellText (obfuscateValue obfuscate (cpre ++ (c :: cmid) ++ cpost) pre.length value).get!
            = encode c value obfuscate := by
        unfold obfuscateValue
        cases obfuscate with
        | none =>
          cases value with
          | none => simp [encode, cellText]
          | some v => cases hv : v.Valid <;> simp [encode, cellText, hv]
        | some m =>
          simp only [hcol]
          cases hm : m c with
          | none =>
            cases value with
            | none => simp [encode, cellText]
            | some v => cases hv : v.Valid <;> simp [encode, cellText, hv, hm]
          | some t =>
            cases value with
            | none => simp [encode, cellText]
            | some v => cases hv : v.Valid <;> simp [encode, cellText, hv, hm]
      have key : cellLoop obfuscate (cpre ++ (c :: cmid) ++ cpost) pre.length (value :: rest)
            (pre ++ (x :: mid) ++ post)
          = cellLoop obfuscate (cpre ++ (c :: cmid) ++ cpost) (pre.length + 1) rest
              ((pre ++ (x :: mid) ++ post).set pre.length (encode c value obfuscate)) := by
        rw [cellLoop, hval.1]
        simp only [hlt, if_true, hval.2]
      rw [key, hset, hcs]
      have := ih (cpre ++ [c]) cmid cpost (pre ++ [encode c value obfuscate]) mid post
        (by simp [h1]) (by simpa using h2) (by simpa using h3)
      simp only [List.length_append, List.length_singleton] at this
      rw [this]
      simp

theorem rowStrings_eq (obfuscate : Option ColumnMap) (columns : List String)
    (data : List (Option NullString)) (h : data.length = columns.length) :
    rowStrings obfuscate columns data
      = some (List.zipWith (fun c v => encode c v obfuscate) columns data) := by
  have := cellLoop_append obfuscate data [] columns [] [] (List.replicate columns.length "") []
    rfl h.symm (by simp [h])
  simpa [rowStrings] using this

theorem scanPtrs_ok {values : List (Option String)} {n : Nat}
    {data : List (Option NullString)} (h : Rows.ScanPtrs values n = .ok data) :
    values.length = n ∧ data = values.map scanPtr := by
  unfold Rows.ScanPtrs at h
  split at h
  · rename_i hl
    injection h with h
    exact ⟨hl, h.symm⟩
  · cases h

/-- C1: for a row fetched by `createTableValues` whose re-read column list is the
one read before the loop, the loop over the cells succeeds with one literal per
column; a NULL cell gives exactly `null` whatever the obfuscation map holds; a
non-null cell with raw string `s` gives exactly `'` + `t s` + `'` when the map
holds `t` under the column's name and `'` + `s` + `'` when the map is nil or
has no such key, nothing being escaped; and these literals, joined by `,`
between parentheses, are the tuple the row loop appends. -/
theorem createTableValues_cell_literal (obfuscate : Option ColumnMap) (columns : List String)
    (r : RowRead) (data : List (Option NullString))
    (hcols : r.Columns = .ok columns)
    (hscan : Rows.ScanPtrs r.values columns.length = .ok data) :
    ∃ dataStrings : List String,
      rowStrings obfuscate columns data = some dataStrings ∧
      dataStrings.length = columns.length ∧
      (∀ rest dataText,
        rowLoop obfuscate columns.length (r :: rest) dataText
          = rowLoop obfuscate columns.length rest
              (dataText ++ ["(" ++ stringsJoin dataStrings "," ++ ")"])) ∧
      ∀ (i : Nat) (column : String), columns[i]? = some column →
        (r.values[i]? = some none → dataStrings[i]? = some "null") ∧
        (∀ s : String, r.values[i]? = some (some s) →
          (∀ (m : ColumnMap) (t : String → String), obfuscate = some m → m column = some t →
            dataStrings[i]? = some ("'" ++ t s ++ "'")) ∧
          ((obfuscate = none ∨ ∃ m : ColumnMap, obfuscate = some m ∧ m column = none) →
            dataStrings[i]? = some ("'" ++ s ++ "'"))) := by
  obtain ⟨hlen, hdata⟩ := scanPtrs_ok hscan
  have hrow := rowStrings_eq obfuscate columns data (by rw [hdata, List.length_map, hlen])
  refine ⟨_, hrow, ?_, ?_, ?_⟩
  · simp [List.length_zipWith, hdata, hlen]
  · intro rest dataText
    rw [rowLoop, hcols]
    simp only [hscan, hrow]
  · intro i column hc
    have hget : ∀ v : Option String, r.values[i]? = some v →
        (List.zipWith (fun c v => encode c v obfuscate) columns data)[i]?
          = some (encode column (scanPtr v) obfuscate) := by
      intro v hv
      simp [List.getElem?_zipWith, hc, hdata, hv]
    refine ⟨fun hnull => ?_, fun s hs => ⟨fun m t hm ht => ?_, fun hno => ?_⟩⟩
    · rw [hget _ hnull]; simp [scanPtr, encode]
    · rw [hget _ hs]; simp [scanPtr, scanNullString, encode, hm, ht]
    · rw [hget _ hs]
      rcases hno with hno | ⟨m, hm, hno⟩
      · simp [scanPtr, scanNullString, encode, hno]
      · simp [scanPtr, scanNullString, encode, hm, hno]

theorem rowLoop_eq (obfuscate : Option ColumnMap) (columns : List String) :
    ∀ (rows : List RowRead) (dataText : List String),
      (∀ r ∈ rows, r.Columns = .ok columns ∧
        ∃ data, Rows.ScanPtrs r.values columns.length = .ok data) →
      rowLoop obfuscate columns.length rows dataText
        = some (.ok (dataText ++ rows.map fun r => rowTuple obfuscate columns r.values)) := by
  intro rows
  induction rows with
  | nil => intro dataText _; simp [rowLoop]
  | cons r rest ih =>
    intro dataText h
    obtain ⟨hcols, data, hscan⟩ := h r (List.mem_cons_self _ _)
    obtain ⟨hlen, hdata⟩ := scanPtrs_ok hscan
    have hrow := rowStrings_eq obfuscate columns data (by rw [hdata, List.length_map, hlen])
    rw [rowLoop, hcols]
    simp only [hscan, hrow]
    rw [ih _ (fun r hr => h r (List.mem_cons_of_mem _ hr))]
    simp [rowTuple, hdata]

/-- C3: for a table with at least one column whose row stream is read without
error, `createTableValues` returns a nil error and the fragment made of the rows'
tuples joined by `,` in row-fetch order, each tuple being `(` + the row's cell
literals joined by `,` in column order + `)` with exactly one literal per
column; with zero rows the fragment is the empty string. -/
theorem createTableValues_fragment (db : DB) (name : String) (obfuscate : Option ColumnMap)
    (rows : Rows) (columns : List String)
    (hquery : db.Query (selectText name) = .ok rows)
    (hcolumns : columns ≠ [])
    (hread : rows.ReadsWell columns) :
    (createTableValues db name obfuscate).1
        = some (valuesFragment obfuscate columns rows.rows, none) ∧
      (∀ r ∈ rows.rows,
        (List.zipWith (fun c v => encode c v obfuscate) columns (r.values.map scanPtr)).length
          = columns.length) ∧
      (rows.rows = [] → (createTableValues db name obfuscate).1 = some ("", none)) := by
  obtain ⟨hc, hrows, herr⟩ := hread
  have hne : ¬ columns.length = 0 := fun h => hcolumns (List.length_eq_zero.mp h)
  have hval : (createTableValues db name obfuscate).1
      = some (valuesFragment obfuscate columns rows.rows, none) := by
    simp [createTableValues, hquery, hc, hne, rowLoop_eq obfuscate columns rows.rows [] hrows,
      herr, valuesFragment]
  refine ⟨hval, ?_, ?_⟩
  · intro r hr
    obtain ⟨_, data, hscan⟩ := hrows r hr
    obtain ⟨hlen, _⟩ := scanPtrs_ok hscan
    simp [List.length_zipWith, hlen]
  · intro hnil
    rw [hval, hnil]
    rfl

/-! ## Lemmas on the template -/

theorem tableBlock_empty (t : table) (h : t.Values = "") :
    tableBlock t = blockHead t ++ disableKeysLine t ++ "\n" ++ enableKeysLine t
      ++ "UNLOCK TABLES;\n" := by
  simp only [tableBlock, tmplTable, List.map, Action.exec, Leaf.exec, String.join, List.foldl, h,
    ↓reduceIte, String.append_empty, String.empty_append, blockHead, disableKeysLine,
    enableKeysLine]
  rw [show " WRITE;\n/*!40000 ALTER TABLE " = " WRITE;\n" ++ "/*!40000 ALTER TABLE " by decide,
    show "\n/*!40000 ALTER TABLE " = "\n" ++ "/*!40000 ALTER TABLE " by decide,
    show " ENABLE KEYS */;\nUNLOCK TABLES;\n" = " ENABLE KEYS */;\n" ++ "UNLOCK TABLES;\n"
      by decide]
  simp only [String.append_assoc]

theorem tableBlock_nonempty (t : table) (h : t.Values ≠ "") :
    tableBlock t = blockHead t ++ disableKeysLine t ++ "\n" ++ insertLine t ++ "\n"
      ++ enableKeysLine t ++ "UNLOCK TABLES;\n" := by
  simp only [tableBlock, tmplTable, List.map, Action.exec, Leaf.exec, String.join, List.foldl, h,
    ↓reduceIte, String.append_empty, String.empty_append, blockHead, disableKeysLine,
    enableKeysLine, insertLine]
  rw [show " WRITE;\n/*!40000 ALTER TABLE " = " WRITE;\n" ++ "/*!40000 ALTER TABLE " by decide,
    show "\n/*!40000 ALTER TABLE " = "\n" ++ "/*!40000 ALTER TABLE " by decide,
    show "\nINSERT INTO " = "\n" ++ "INSERT INTO " by decide,
    show " ENABLE KEYS */;\nUNLOCK TABLES;\n" = " ENABLE KEYS */;\n" ++ "UNLOCK TABLES;\n"
      by decide]
  simp only [String.append_assoc]

theorem Execute_eq (data : dump) :
    Execute data = docHead data.DumpVersion data.ServerVersion
      ++ String.join (data.Tables.map tableBlock) ++ docFoot data.CompleteTime := by
  have h : Node.exec data (.range dump.Tables tmplTable)
      = String.join (data.Tables.map tableBlock) := rfl
  simp only [Execute, tmpl, List.map]
  rw [h]
  simp only [Node.exec, Leaf.exec, String.join, List.foldl, String.empty_append, docHead,
    docFoot, String.append_assoc]

/-! ## Lemmas on `Dump` -/

theorem createTable_ok_name {db : DB} {name : String} {obfuscate : Option ColumnMap}
    {t : table} (h : (createTable db name obfuscate).1 = some (.ok t)) : t.Name = name := by
  unfold createTable at h
  split at h
  · simp at h
  · split at h
    · simp at h
    · simp at h
    · simp only [Option.some.injEq, Except.ok.injEq] at h
      rw [← h]

theorem tableLoop_ok (db : DB) (obfuscate : ObfuscateMap) :
    ∀ (names : List String) (tables ts : List table),
      (tableLoop db obfuscate names tables).1 = some (.ok ts) →
      ∃ new, ts = tables ++ new ∧
        List.Forall₂ (fun name t => (createTable db name (obfuscate name)).1 = some (.ok t))
          names new := by
  intro names
  induction names with
  | nil =>
    intro tables ts h
    simp only [tableLoop, Option.some.injEq, Except.ok.injEq] at h
    exact ⟨[], by simp [h], List.Forall₂.nil⟩
  | cons name rest ih =>
    intro tables ts h
    rw [tableLoop] at h
    split at h
    · simp at h
    · simp at h
    · rename_i t q hct
      obtain ⟨new, hnew, hall⟩ := ih _ _ h
      refine ⟨t :: new, by simp [hnew], List.Forall₂.cons ?_ hall⟩
      rw [hct]

theorem tableLoop_fail (db : DB) (obfuscate : ObfuscateMap) (name : String) (post : List String)
    (err : Error) (hfail : (createTable db name (obfuscate name)).1 = some (.error err)) :
    ∀ (pre : List String) (tables : List table),
      (∀ n ∈ pre, ∃ t, (createTable db n (obfuscate n)).1 = some (.ok t)) →
      tableLoop db obfuscate (pre ++ name :: post) tables
        = (some (.error err),
           pre.flatMap (fun n => (createTable db n (obfuscate n)).2)
             ++ (createTable db name (obfuscate name)).2) := by
  intro pre
  induction pre with
  | nil =>
    intro tables _
    rcases hct : createTable db name (obfuscate name) with ⟨r, q⟩
    rw [hct] at hfail
    simp only at hfail
    subst hfail
    simp [tableLoop, hct]
  | cons n pre ih =>
    intro tables hpre
    obtain ⟨t, ht⟩ := hpre n (List.mem_cons_self _ _)
    rcases hct : createTable db n (obfuscate n) with ⟨r, q⟩
    rw [hct] at ht
    simp only at ht
    subst ht
    have := ih (tables ++ [t]) (fun m hm => hpre m (List.mem_cons_of_mem _ hm))
    simp [tableLoop, hct, this]

theorem getServerVersion_queries (db : DB) : (getServerVersion db).2 = [versionText] := rfl

theorem getTables_queries (db : DB) : (getTables db).2 = ["SHOW TABLES"] := rfl

theorem osCreate_ok {fs : FS} {p : String} (h : fs.createErr p = none) :
    osCreate fs p
      = (none, { fs with files := fun q => if q = p then some { content := "", IsDir := false }
                                           else fs.files q }) := by
  simp [osCreate, h]

theorem Dump_loop (env : Env) (d : Dumper) (obfuscate : ObfuscateMap) (fs : FS)
    (serverVersion : String) (tables : List String)
    (hex : («exists» fs (dumpPath env d)).1 = false)
    (hcreate : fs.createErr (dumpPath env d) = none)
    (hver : (getServerVersion d.db).1 = (serverVersion, none))
    (htabs : (getTables d.db).1 = (tables, none)) :
    Dumper.Dump env d obfuscate fs
      = match tableLoop d.db obfuscate tables [] with
        | (none, q3) =>
          { ret := none, fs := (osCreate fs (dumpPath env d)).2,
            queries := [versionText, "SHOW TABLES"] ++ q3, executed := false }
        | (some (.error err), q3) =>
          { ret := some (dumpPath env d, some err), fs := (osCreate fs (dumpPath env d)).2,
            queries := [versionText, "SHOW TABLES"] ++ q3, executed := false }
        | (some (.ok ts), q3) =>
          match fileWrite (osCreate fs (dumpPath env d)).2 (dumpPath env d)
              (Execute { DumpVersion := version, ServerVersion := serverVersion, Tables := ts,
                         CompleteTime := env.nowString }) with
          | (some err, fs2) =>
            { ret := some (dumpPath env d, some err), fs := fs2,
              queries := [versionText, "SHOW TABLES"] ++ q3, executed := true }
          | (none, fs2) =>
            { ret := some (dumpPath env d, none), fs := fs2,
              queries := [versionText, "SHOW TABLES"] ++ q3, executed := true } := by
  have hq1 := getServerVersion_queries d.db
  have hq2 := getTables_queries d.db
  rcases hv : getServerVersion d.db with ⟨r1, q1⟩
  rcases ht : getTables d.db with ⟨r2, q2⟩
  rw [hv] at hver hq1
  rw [ht] at htabs hq2
  simp only at hver hq1 htabs hq2
  subst hver hq1 htabs hq2
  unfold Dumper.Dump
  simp only [hex, osCreate_ok hcreate, hv, ht, Bool.false_eq_true, ↓reduceIte]
  rcases tableLoop d.db obfuscate tables [] with ⟨_ | _ | ts, q3⟩
  · simp
  · simp
  · simp only [List.append_assoc, List.singleton_append, List.cons_append, List.nil_append]

theorem Dump_first_failure (env : Env) (d : Dumper) (obfuscate : ObfuscateMap) (fs : FS)
    (serverVersion : String) (pre post : List String) (name : String) (err : Error)
    (hex : («exists» fs (dumpPath env d)).1 = false)
    (hcreate : fs.createErr (dumpPath env d) = none)
    (hver : (getServerVersion d.db).1 = (serverVersion, none))
    (htabs : (getTables d.db).1 = (pre ++ name :: post, none))
    (hpre : ∀ n ∈ pre, ∃ t, (createTable d.db n (obfuscate n)).1 = some (.ok t))
    (hfail : (createTable d.db name (obfuscate name)).1 = some (.error err)) :
    Dumper.Dump env d obfuscate fs
      = { ret := some (dumpPath env d, some err),
          fs := (osCreate fs (dumpPath env d)).2,
          queries := [versionText, "SHOW TABLES"]
            ++ (pre.flatMap (fun n => (createTable d.db n (obfuscate n)).2)
              ++ (createTable d.db name (obfuscate name)).2),
          executed := false } := by
  rw [Dump_loop env d obfuscate fs serverVersion _ hex hcreate hver htabs,
    tableLoop_fail d.db obfuscate name post err hfail pre [] hpre]

theorem osCreate_files {fs : FS} {p : String} (h : fs.createErr p = none) :
    (osCreate fs p).2.files p = some { content := "", IsDir := false } := by
  simp [osCreate_ok h]

/-- C6: when the catalog lists `pre ++ name :: post`, every table of `pre` is
exported and `createTable` returns the error `err` for `name`, `Dump` returns
exactly `err`, sends no statement for a table of `post` (the statements sent are
the two catalog queries, those of `pre` and those of `name`), never executes the
template, and leaves the created file empty. -/
theorem Dump_all_or_nothing (env : Env) (d : Dumper) (obfuscate : ObfuscateMap) (fs : FS)
    (serverVersion : String) (pre post : List String) (name : String) (err : Error)
    (hex : («exists» fs (dumpPath env d)).1 = false)
    (hcreate : fs.createErr (dumpPath env d) = none)
    (hver : (getServerVersion d.db).1 = (serverVersion, none))
    (htabs : (getTables d.db).1 = (pre ++ name :: post, none))
    (hpre : ∀ n ∈ pre, ∃ t, (createTable d.db n (obfuscate n)).1 = some (.ok t))
    (hfail : (createTable d.db name (obfuscate name)).1 = some (.error err)) :
    (Dumper.Dump env d obfuscate fs).ret = some (dumpPath env d, some err) ∧
      (Dumper.Dump env d obfuscate fs).queries
        = [versionText, "SHOW TABLES"]
          ++ (pre.flatMap (fun n => (createTable d.db n (obfuscate n)).2)
            ++ (createTable d.db name (obfuscate name)).2) ∧
      (Dumper.Dump env d obfuscate fs).executed = false ∧
      (Dumper.Dump env d obfuscate fs).fs.files (dumpPath env d)
        = some { content := "", IsDir := false } := by
  rw [Dump_first_failure env d obfuscate fs serverVersion pre post name err hex hcreate hver
    htabs hpre hfail]
  exact ⟨rfl, rfl, rfl, osCreate_files hcreate⟩

theorem createTableSQL_ok_iff (db : DB) (name : String) :
    (createTableSQL db name).1.2 = none ↔
      ∃ tableReturn tableSql, db.QueryRowScan2 (showCreateText name) = .ok (tableReturn, tableSql)
        ∧ tableReturn.String = name := by
  unfold createTableSQL
  rcases db.QueryRowScan2 (showCreateText name) with err | ⟨tableReturn, tableSql⟩
  · simp
  · by_cases h : tableReturn.String = name <;> simp [h]

theorem mismatch_result (db : DB) (name : String) (tableReturn tableSql : NullString)
    (hlookup : db.QueryRowScan2 (showCreateText name) = .ok (tableReturn, tableSql))
    (hne : tableReturn.String ≠ name) :
    createTableSQL db name = (("", some mismatchError), [showCreateText name]) := by
  simp [createTableSQL, hlookup, hne]

/-- C7: `createTableSQL` returns a nil error exactly when the `SHOW CREATE TABLE`
lookup succeeds with the requested name, and then it returns the DDL; when the
lookup succeeds with another identifier it returns the mismatch error and an
empty DDL, `createTable` returns no table, and a dump that reaches this table
returns that error without executing the template, the created file staying
empty. -/
theorem createTableSQL_mismatch (env : Env) (d : Dumper) (obfuscate : ObfuscateMap) (fs : FS)
    (serverVersion : String) (pre post : List String) (name : String)
    (tableReturn tableSql : NullString)
    (hlookup : d.db.QueryRowScan2 (showCreateText name) = .ok (tableReturn, tableSql))
    (hne : tableReturn.String ≠ name)
    (hex : («exists» fs (dumpPath env d)).1 = false)
    (hcreate : fs.createErr (dumpPath env d) = none)
    (hver : (getServerVersion d.db).1 = (serverVersion, none))
    (htabs : (getTables d.db).1 = (pre ++ name :: post, none))
    (hpre : ∀ n ∈ pre, ∃ t, (createTable d.db n (obfuscate n)).1 = some (.ok t)) :
    (∀ (db : DB) (requested : String),
      ((createTableSQL db requested).1.2 = none ↔
        ∃ r ddl, db.QueryRowScan2 (showCreateText requested) = .ok (r, ddl)
          ∧ r.String = requested) ∧
      (∀ r ddl, db.QueryRowScan2 (showCreateText requested) = .ok (r, ddl) →
        r.String = requested → (createTableSQL db requested).1 = (ddl.String, none))) ∧
      (createTableSQL d.db name).1 = ("", some mismatchError) ∧
      (∀ o, (createTable d.db name o).1 = some (.error mismatchError)) ∧
      (Dumper.Dump env d obfuscate fs).ret = some (dumpPath env d, some mismatchError) ∧
      (Dumper.Dump env d obfuscate fs).executed = false ∧
      (Dumper.Dump env d obfuscate fs).fs.files (dumpPath env d)
        = some { content := "", IsDir := false } := by
  have hsql := mismatch_result d.db name tableReturn tableSql hlookup hne
  have hct : ∀ o, (createTable d.db name o).1 = some (.error mismatchError) := by
    intro o
    simp [createTable, hsql]
  refine ⟨fun db requested => ⟨createTableSQL_ok_iff db requested, ?_⟩, by rw [hsql], hct, ?_⟩
  · intro r ddl h1 h2
    simp [createTableSQL, h1, h2]
  · rw [Dump_first_failure env d obfuscate fs serverVersion pre post name mismatchError hex
      hcreate hver htabs hpre (hct _)]
    exact ⟨rfl, rfl, osCreate_files hcreate⟩

/-- C8, amended: when the entry at the computed path can be opened and stat'ed,
`Dump` returns the `already exists` error, leaves the file system as it was
(the entry keeps its content), sends no statement and does not execute the
template. -/
theorem Dump_already_exists (env : Env) (d : Dumper) (obfuscate : ObfuscateMap) (fs : FS)
    (f : FileInfo)
    (hfile : fs.files (dumpPath env d) = some f)
    (hopen : fs.openErr (dumpPath env d) = none)
    (hstat : fs.statErr (dumpPath env d) = none) :
    Dumper.Dump env d obfuscate fs
        = { ret := some (dumpPath env d, some (alreadyExistsError (dumpName env d))),
            fs := fs, queries := [], executed := false } ∧
      (Dumper.Dump env d obfuscate fs).fs.files (dumpPath env d) = some f := by
  have hex : («exists» fs (dumpPath env d)).1 = true := by
    simp [«exists», osOpen, hfile, hopen, hstat]
  have h : Dumper.Dump env d obfuscate fs
      = { ret := some (dumpPath env d, some (alreadyExistsError (dumpName env d))),
          fs := fs, queries := [], executed := false } := by
    unfold Dumper.Dump
    simp only [hex, ↓reduceIte]
  exact ⟨h, by rw [h]; exact hfile⟩

theorem Dump_success (env : Env) (d : Dumper) (obfuscate : ObfuscateMap) (fs : FS)
    (p' : String) (h : (Dumper.Dump env d obfuscate fs).ret = some (p', none)) :
    ∃ serverVersion tables ts,
      (getServerVersion d.db).1 = (serverVersion, none) ∧
      (getTables d.db).1 = (tables, none) ∧
      (tableLoop d.db obfuscate tables []).1 = some (.ok ts) ∧
      (Dumper.Dump env d obfuscate fs).fs.files (dumpPath env d)
        = some { content := Execute { DumpVersion := version, ServerVersion := serverVersion,
                                      Tables := ts, CompleteTime := env.nowString },
                 IsDir := false } := by
  by_cases hex : («exists» fs (dumpPath env d)).1 = true
  · simp [Dumper.Dump, hex] at h
  · have hex' : («exists» fs (dumpPath env d)).1 = false := by simpa using hex
    cases hc : fs.createErr (dumpPath env d) with
    | some e => simp [Dumper.Dump, hex', osCreate, hc] at h
    | none =>
      rcases hv : getServerVersion d.db with ⟨⟨sv, e1⟩, q1⟩
      cases e1 with
      | some e => simp [Dumper.Dump, hex', osCreate, hc, hv] at h
      | none =>
        rcases ht : getTables d.db with ⟨⟨tables, e2⟩, q2⟩
        cases e2 with
        | some e => simp [Dumper.Dump, hex', osCreate, hc, hv, ht] at h
        | none =>
          have hl := Dump_loop env d obfuscate fs sv tables hex' hc (by rw [hv]) (by rw [ht])
          rw [hl] at h ⊢
          rcases hloop : tableLoop d.db obfuscate tables [] with ⟨r, q3⟩
          rw [hloop] at h
          match r, h with
          | none, h => simp at h
          | some (.error e), h => simp at h
          | some (.ok ts), h =>
            refine ⟨sv, tables, ts, rfl, rfl, by rw [hloop], ?_⟩
            simp only at h ⊢
            cases hw : fs.writeErr (dumpPath env d) with
            | some e => simp [fileWrite, osCreate, hc, hw] at h
            | none => simp [fileWrite, osCreate, hc, hw]

theorem forall₂_names {db : DB} {obfuscate : ObfuscateMap} {names : List String}
    {new : List table}
    (h : List.Forall₂ (fun name t => (createTable db name (obfuscate name)).1 = some (.ok t))
      names new) :
    new.map table.Name = names := by
  induction h with
  | nil => rfl
  | cons hx _ ih => simp [createTable_ok_name hx, ih]

theorem forall₂_getElem? {α β : Type} {R : α → β → Prop} {l₁ : List α} {l₂ : List β}
    (h : List.Forall₂ R l₁ l₂) :
    ∀ (i : Nat) (a : α), l₁[i]? = some a → ∃ b, l₂[i]? = some b ∧ R a b := by
  induction h with
  | nil => intro i a ha; simp at ha
  | cons hx _ ih =>
    intro i a ha
    cases i with
    | zero =>
      simp only [List.getElem?_cons_zero, Option.some.injEq] at ha
      subst ha
      exact ⟨_, by simp, hx⟩
    | succ i =>
      simp only [List.getElem?_cons_succ] at ha
      obtain ⟨b, hb, hr⟩ := ih i a ha
      exact ⟨b, by simpa using hb, hr⟩

/-- C5: when `Dump` succeeds, the file holds the header, one block per table
record and the footer, the records' names being the catalog listing of
`getTables` in the same order; for the listing `zebra`, `alpha` the block of
`zebra` comes first. -/
theorem Dump_table_order (env : Env) (d : Dumper) (obfuscate : ObfuscateMap) (fs : FS)
    (p' : String) (h : (Dumper.Dump env d obfuscate fs).ret = some (p', none)) :
    ∃ (serverVersion : String) (ts : List table),
      (getTables d.db).1 = (ts.map table.Name, none) ∧
      (Dumper.Dump env d obfuscate fs).fs.files (dumpPath env d)
        = some { content := docHead version serverVersion
                   ++ String.join (ts.map tableBlock) ++ docFoot env.nowString,
                 IsDir := false } ∧
      (ts.map table.Name = ["zebra", "alpha"] →
        ∃ z a, z.Name = "zebra" ∧ a.Name = "alpha" ∧
          (Dumper.Dump env d obfuscate fs).fs.files (dumpPath env d)
            = some { content := docHead version serverVersion
                       ++ (tableBlock z ++ tableBlock a) ++ docFoot env.nowString,
                     IsDir := false }) := by
  obtain ⟨sv, tables, ts, _, htabs, hloop, hfile⟩ := Dump_success env d obfuscate fs p' h
  obtain ⟨new, hnew, hall⟩ := tableLoop_ok d.db obfuscate tables [] ts hloop
  simp only [List.nil_append] at hnew
  subst hnew
  rw [Execute_eq] at hfile
  refine ⟨sv, ts, ?_, hfile, ?_⟩
  · rw [htabs, forall₂_names hall]
  · intro hz
    cases ts with
    | nil => simp at hz
    | cons z rest =>
      cases rest with
      | nil => simp at hz
      | cons a rest =>
        cases rest with
        | cons _ _ => simp at hz
        | nil =>
          simp only [List.map, List.cons.injEq, and_true] at hz
          refine ⟨z, a, hz.1, hz.2, ?_⟩
          rw [hfile]
          simp [String.join]

theorem tableLoop_record (db : DB) (m : ObfuscateMap) (names : List String)
    (ts : List table) (i : Nat) (B : String)
    (h : (tableLoop db m names []).1 = some (.ok ts)) (hB : names[i]? = some B) :
    ∃ t, ts[i]? = some t ∧ (createTable db B (m B)).1 = some (.ok t) := by
  obtain ⟨new, hnew, hall⟩ := tableLoop_ok db m names [] ts h
  simp only [List.nil_append] at hnew
  subst hnew
  exact forall₂_getElem? hall i B hB

/-- C2: the record `Dump` builds for the table `B` at position `i` of the
listing is the one `createTable` returns for `B` with `obfuscate[B]` alone, so
two obfuscation maps that agree on `B` give the same record for `B`, whatever
they hold for other tables; in particular registering any map `cm` under
another table `A` leaves the record of `B` as it was. -/
theorem Dump_table_scoped (db : DB) (m1 m2 : ObfuscateMap) (names : List String)
    (ts1 ts2 : List table) (i : Nat) (B : String)
    (h1 : (tableLoop db m1 names []).1 = some (.ok ts1))
    (h2 : (tableLoop db m2 names []).1 = some (.ok ts2))
    (hB : names[i]? = some B)
    (hagree : m1 B = m2 B) :
    ts1[i]? = ts2[i]? ∧
      (∃ t, ts1[i]? = some t ∧ t.Name = B ∧ (createTable db B (m1 B)).1 = some (.ok t)) ∧
      (∀ (A : String) (cm : Option ColumnMap) (ts3 : List table), A ≠ B →
        (tableLoop db (fun n => if n = A then cm else m1 n) names []).1 = some (.ok ts3) →
        ts3[i]? = ts1[i]?) := by
  obtain ⟨t1, ht1, hr1⟩ := tableLoop_record db m1 names ts1 i B h1 hB
  obtain ⟨t2, ht2, hr2⟩ := tableLoop_record db m2 names ts2 i B h2 hB
  refine ⟨?_, ⟨t1, ht1, createTable_ok_name hr1, hr1⟩, ?_⟩
  · rw [← hagree, hr1] at hr2
    simp only [Option.some.injEq, Except.ok.injEq] at hr2
    rw [ht1, ht2, hr2]
  · intro A cm ts3 hne h3
    obtain ⟨t3, ht3, hr3⟩ := tableLoop_record db _ names ts3 i B h3 hB
    have hBA : ¬ B = A := fun h => hne h.symm
    simp only [hBA, ↓reduceIte] at hr3
    rw [hr1] at hr3
    simp only [Option.some.injEq, Except.ok.injEq] at hr3
    rw [ht1, ht3, hr3]

theorem scan1_invalid {values : List (Option String)} {v : NullString}
    (h : Rows.Scan1 values = .ok v) (hv : v.Valid = false) : v.String = "" := by
  unfold Rows.Scan1 at h
  split at h
  · rename_i x
    injection h with h
    subst h
    cases x with
    | none => rfl
    | some s => simp [scanNullString] at hv
  · cases h

theorem QueryRowScan1_invalid {db : DB} {text : String} {v : NullString}
    (h : db.QueryRowScan1 text = .ok v) (hv : v.Valid = false) : v.String = "" := by
  unfold DB.QueryRowScan1 DB.QueryRowScan at h
  split at h
  · cases h
  · split at h
    · cases h
    · split at h
      · cases h
      · rename_i dest hscan
        split at h
        · cases h
        · injection h with h
          subst h
          exact scan1_invalid hscan hv

/-- C9, amended: when `db.QueryRow("SELECT version()").Scan(&serverVersion)`
returns without error and the value read is NULL, `getServerVersion` returns the
empty string and no error, `Dump` goes on to the catalog and, when it succeeds,
the header is rendered with an empty server version; when that call fails with
`err` (the query, the scan or the closing of the row), `getServerVersion` returns
`err` (with the empty string) and `Dump` returns `err` right after that query,
nothing being rendered. -/
theorem getServerVersion_null_or_error (env : Env) (d : Dumper) (obfuscate : ObfuscateMap)
    (fs : FS)
    (hex : («exists» fs (dumpPath env d)).1 = false)
    (hcreate : fs.createErr (dumpPath env d) = none) :
    (∀ serverVersion : NullString,
      d.db.QueryRowScan1 versionText = .ok serverVersion → serverVersion.Valid = false →
      (getServerVersion d.db).1 = ("", none) ∧
      (∃ rest, (Dumper.Dump env d obfuscate fs).queries
        = versionText :: "SHOW TABLES" :: rest) ∧
      (∀ p', (Dumper.Dump env d obfuscate fs).ret = some (p', none) →
        ∃ ts : List table, (Dumper.Dump env d obfuscate fs).fs.files (dumpPath env d)
          = some { content := docHead version "" ++ String.join (ts.map tableBlock)
                     ++ docFoot env.nowString,
                   IsDir := false })) ∧
    (∀ err, d.db.QueryRowScan1 versionText = .error err →
      (getServerVersion d.db).1 = ("", some err) ∧
      Dumper.Dump env d obfuscate fs
        = { ret := some (dumpPath env d, some err), fs := (osCreate fs (dumpPath env d)).2,
            queries := [versionText], executed := false }) := by
  constructor
  · intro serverVersion hnull hvalid
    have hgs : getServerVersion d.db = (("", none), [versionText]) := by
      simp [getServerVersion, hnull, QueryRowScan1_invalid hnull hvalid]
    refine ⟨by rw [hgs], ?_, ?_⟩
    · rcases ht : getTables d.db with ⟨⟨tables, e2⟩, q2⟩
      have hq2 : q2 = ["SHOW TABLES"] := by
        have := getTables_queries d.db
        rw [ht] at this
        exact this.symm ▸ rfl
      subst hq2
      cases e2 with
      | some e =>
        refine ⟨[], ?_⟩
        unfold Dumper.Dump
        simp [hex, osCreate_ok hcreate, hgs, ht]
      | none =>
        rw [Dump_loop env d obfuscate fs "" tables hex hcreate (by rw [hgs]) (by rw [ht])]
        rcases tableLoop d.db obfuscate tables [] with ⟨r, q3⟩
        match r with
        | none => exact ⟨q3, rfl⟩
        | some (.error e) => exact ⟨q3, rfl⟩
        | some (.ok ts) =>
          simp only
          rcases fileWrite _ _ _ with ⟨_ | e, fs2⟩
          · exact ⟨q3, rfl⟩
          · exact ⟨q3, rfl⟩
    · intro p' hret
      obtain ⟨sv, tables, ts, hv, _, _, hfile⟩ := Dump_success env d obfuscate fs p' hret
      rw [hgs] at hv
      simp only [Prod.mk.injEq, and_true] at hv
      subst hv
      exact ⟨ts, by rw [hfile, Execute_eq]⟩
  · intro err herr
    have hgs : getServerVersion d.db = (("", some err), [versionText]) := by
      simp [getServerVersion, herr]
    refine ⟨by rw [hgs], ?_⟩
    unfold Dumper.Dump
    simp [hex, osCreate_ok hcreate, hgs]

theorem createTableValues_zero_rows (db : DB) (name : String) (obfuscate : Option ColumnMap)
    (rows : Rows) (hquery : db.Query (selectText name) = .ok rows) (hzero : rows.rows = [])
    (v : String) (e : Option Error)
    (h : (createTableValues db name obfuscate).1 = some (v, e)) : v = "" := by
  unfold createTableValues at h
  simp only [hquery, hzero, rowLoop] at h
  split at h
  · simp only [Option.some.injEq, Prod.mk.injEq] at h
    exact h.1.symm
  · split at h
    · simp only [Option.some.injEq, Prod.mk.injEq] at h
      exact h.1.symm
    · simp only [Option.some.injEq, Prod.mk.injEq] at h
      rw [← h.1]
      rfl

theorem createTable_zero_rows (db : DB) (name : String) (obfuscate : Option ColumnMap)
    (rows : Rows) (t : table)
    (hquery : db.Query (selectText name) = .ok rows) (hzero : rows.rows = [])
    (hok : (createTable db name obfuscate).1 = some (.ok t)) : t.Values = "" := by
  unfold createTable at hok
  split at hok
  · simp at hok
  · split at hok
    · simp at hok
    · simp at hok
    · rename_i values q2 hv
      simp only [Option.some.injEq, Except.ok.injEq] at hok
      rw [← hok]
      exact createTableValues_zero_rows db name obfuscate rows hquery hzero values none
        (by rw [hv])

theorem example_createTable_user (f : String → String) :
    createTable exampleDB "user" (exampleObfuscate f "user")
      = (some (.ok (exampleUser f)),
         ["SHOW CREATE TABLE `user`", "SELECT * FROM `user`"]) := by
  simp [createTable, createTableSQL, DB.QueryRowScan2, DB.QueryRowScan, exampleDB, sampleDB,
    showCreateText, selectText, sampleRows, Rows.Scan2, scanNullString, createTableValues,
    rowLoop, Rows.ScanPtrs, rowStrings, cellLoop, obfuscateValue, cellText, scanPtr,
    stringsJoin, exampleObfuscate, List.find?, exampleUser, String.intercalate,
    String.intercalate.go]
  apply String.ext
  simp [String.data_append]

theorem example_createTable_empty (f : String → String) :
    createTable exampleDB "empty_table" (exampleObfuscate f "empty_table")
      = (some (.ok exampleEmpty),
         ["SHOW CREATE TABLE `empty_table`", "SELECT * FROM `empty_table`"]) := by
  have h : exampleObfuscate f "empty_table" = none := by simp [exampleObfuscate]
  rw [h]
  decide

theorem example_Dump (f : String → String) :
    Dumper.Dump exampleEnv (exampleDumper exampleDB) (exampleObfuscate f) exampleFS
      = { ret := some (examplePath, none),
          fs := (fileWrite (osCreate exampleFS examplePath).2 examplePath
            (Execute { DumpVersion := version, ServerVersion := "8.0.36",
                       Tables := [exampleUser f, exampleEmpty],
                       CompleteTime := "2024-01-02 03:04:06 +0000 UTC" })).2,
          queries := [versionText, "SHOW TABLES", "SHOW CREATE TABLE `user`",
            "SELECT * FROM `user`", "SHOW CREATE TABLE `empty_table`",
            "SELECT * FROM `empty_table`"],
          executed := true } := by
  have hp : dumpPath exampleEnv (exampleDumper exampleDB) = examplePath := by decide
  rw [Dump_loop exampleEnv (exampleDumper exampleDB) (exampleObfuscate f) exampleFS "8.0.36"
    ["user", "empty_table"] (by decide) (by decide) (by decide) (by decide)]
  have hloop : tableLoop (exampleDumper exampleDB).db (exampleObfuscate f)
      ["user", "empty_table"] []
      = (some (.ok [exampleUser f, exampleEmpty]),
         ["SHOW CREATE TABLE `user`", "SELECT * FROM `user`",
          "SHOW CREATE TABLE `empty_table`", "SELECT * FROM `empty_table`"]) := by
    simp [tableLoop, exampleDumper, example_createTable_user, example_createTable_empty]
  rw [hloop, hp]
  rfl

/-- C4: a table whose row stream has no rows gets the empty values fragment and
its block has no INSERT statement, an empty line being all there is between its
`DISABLE KEYS` line and its `ENABLE KEYS` line; a table with a non-empty
fragment `v` has the line `INSERT INTO <name> VALUES v;` there; and in the
end-to-end example the file holds an INSERT for `user` with `f "a@x.com"` between
quotes and none for `empty_table`. -/
theorem tableBlock_insert_iff_values (db : DB) (name : String) (obfuscate : Option ColumnMap)
    (rows : Rows) (t : table) (f : String → String)
    (hquery : db.Query (selectText name) = .ok rows)
    (hzero : rows.rows = [])
    (hok : (createTable db name obfuscate).1 = some (.ok t)) :
    t.Values = "" ∧
      tableBlock t = blockHead t ++ disableKeysLine t ++ "\n" ++ enableKeysLine t
        ++ "UNLOCK TABLES;\n" ∧
      (∀ u : table, u.Values ≠ "" →
        tableBlock u = blockHead u ++ disableKeysLine u ++ "\n"
          ++ ("INSERT INTO " ++ u.Name ++ " VALUES " ++ u.Values ++ ";\n") ++ "\n"
          ++ enableKeysLine u ++ "UNLOCK TABLES;\n") ∧
      (Dumper.Dump exampleEnv (exampleDumper exampleDB) (exampleObfuscate f) exampleFS).ret
        = some (examplePath, none) ∧
      (Dumper.Dump exampleEnv (exampleDumper exampleDB) (exampleObfuscate f) exampleFS).fs.files
          examplePath
        = some { content := docHead "0.2.3" "8.0.36"
                   ++ ((blockHead (exampleUser f) ++ disableKeysLine (exampleUser f) ++ "\n"
                        ++ ("INSERT INTO user VALUES ('1','" ++ f "a@x.com" ++ "');\n") ++ "\n"
                        ++ enableKeysLine (exampleUser f) ++ "UNLOCK TABLES;\n")
                     ++ (blockHead exampleEmpty ++ disableKeysLine exampleEmpty ++ "\n"
                        ++ enableKeysLine exampleEmpty ++ "UNLOCK TABLES;\n"))
                   ++ docFoot "2024-01-02 03:04:06 +0000 UTC",
                 IsDir := false } := by
  have hv := createTable_zero_rows db name obfuscate rows t hquery hzero hok
  refine ⟨hv, tableBlock_empty t hv, fun u hu => ?_, ?_, ?_⟩
  · rw [tableBlock_nonempty u hu]; rfl
  · rw [example_Dump]
  · rw [example_Dump]
    have hu : (exampleUser f).Values ≠ "" := by
      intro h
      have := congrArg String.length h
      simp only [exampleUser, String.length_append] at this
      have h6 : "('1','".length = 6 := by decide
      have h0 : "".length = 0 := by decide
      omega
    have hins : insertLine (exampleUser f)
        = "INSERT INTO user VALUES ('1','" ++ f "a@x.com" ++ "');\n" := by
      simp only [insertLine, exampleUser]
      apply String.ext
      simp [String.data_append]
    simp only [fileWrite, exampleFS, osCreate, ↓reduceIte, Execute_eq, List.map, String.join,
      List.foldl, String.empty_append, tableBlock_nonempty _ hu, tableBlock_empty exampleEmpty rfl,
      hins]
    rfl

/-! ## Lemmas on `obfuscate.go` -/

theorem hexDigit_facts : ∀ n < 16,
    hexDigit n ∈ "0123456789abcdef".data ∧ (hexDigit n).utf8Size = 1 ∧ hexDigit n ≠ quote := by
  decide

theorem hexChars_facts (hash : List Nat) (h : ∀ b ∈ hash, b < 256) :
    (hash.flatMap fun b => [hexDigit (b / 16), hexDigit (b % 16)]).length = 2 * hash.length ∧
      ∀ c ∈ hash.flatMap fun b => [hexDigit (b / 16), hexDigit (b % 16)],
        c ∈ "0123456789abcdef".data ∧ c.utf8Size = 1 ∧ c ≠ quote := by
  induction hash with
  | nil => simp
  | cons b rest ih =>
    have hb : b < 256 := h b (List.mem_cons_self _ _)
    obtain ⟨hl, hc⟩ := ih (fun x hx => h x (List.mem_cons_of_mem _ hx))
    refine ⟨?_, ?_⟩
    · simp only [List.flatMap_cons, List.length_append, List.length_cons, List.length_nil]
      rw [hl]
      omega
    · intro c hmem
      simp only [List.flatMap_cons, List.mem_append, List.mem_cons, List.mem_nil_iff,
        or_false] at hmem
      rcases hmem with (rfl | rfl) | hmem
      · exact hexDigit_facts _ (by omega)
      · exact hexDigit_facts _ (by omega)
      · exact hc c hmem

theorem utf8Len_ascii (l : List Char) (h : ∀ c ∈ l, c.utf8Size = 1) :
    String.utf8Len l = l.length := by
  induction l with
  | nil => rfl
  | cons c cs ih =>
    rw [String.utf8Len_cons, ih (fun x hx => h x (List.mem_cons_of_mem _ hx)),
      h c (List.mem_cons_self _ _), List.length_cons]

theorem sliceTo_ascii (l : List Char) (n : Nat) (h : ∀ c ∈ l, c.utf8Size = 1)
    (hn : n ≤ l.length) : sliceTo ⟨l⟩ n = some ⟨l.take n⟩ := by
  have hlen : (String.mk l).utf8ByteSize = l.length := by
    rw [String.utf8ByteSize_mk, utf8Len_ascii l h]
  have htake : String.utf8Len (l.take n) = n := by
    rw [utf8Len_ascii _ (fun c hc => h c (List.mem_of_mem_take hc)), List.length_take]
    omega
  have hext := String.extract_of_valid [] (l.take n) (l.drop n)
  simp only [List.nil_append, List.take_append_drop, String.utf8Len_nil, Nat.zero_add,
    htake] at hext
  simp only [sliceTo, hlen, hn, ↓reduceIte]
  exact congrArg some hext

theorem count_quote_literal (s : String) (h : quote ∉ s.data) :
    ("'" ++ s ++ "'").data.count quote = 2 := by
  have h1 : ("'" : String).data = [quote] := by decide
  simp only [String.data_append, h1, List.count_append, List.count_eq_zero.mpr h]
  decide

/-- C10: `obfuscateMD5` yields exactly 32 characters, all in `0-9a-f` and one
byte each, so the slice `[:16]` of `obfuscateEmail` is in range: `obfuscateEmail`
returns the first 16 characters followed by `@google.com`, 27 characters without
a single quote; a cell transformed by either function renders as the transformed
text between two single quotes, which are the only single quotes of the
literal. -/
theorem obfuscate_output_shape (md5 : Md5) (data : String) :
    (obfuscateMD5 md5 data).length = 32 ∧
      (∀ c ∈ (obfuscateMD5 md5 data).data, c ∈ "0123456789abcdef".data) ∧
      (obfuscateMD5 md5 data).utf8ByteSize = 32 ∧
      obfuscateEmail md5 data
        = some (String.mk ((obfuscateMD5 md5 data).data.take 16) ++ "@google.com") ∧
      (∀ e, obfuscateEmail md5 data = some e → e.length = 27 ∧ quote ∉ e.data) ∧
      (∀ (m : ColumnMap) (column : String) (t : String → String),
        m column = some t →
        (t data = obfuscateMD5 md5 data ∨ obfuscateEmail md5 data = some (t data)) →
        rowStrings (some m) [column] [some { String := data, Valid := true }]
            = some ["'" ++ t data ++ "'"] ∧
          ("'" ++ t data ++ "'").data.count quote = 2) := by
  obtain ⟨hlen, hchars⟩ := hexChars_facts (md5.Sum data) (md5.lt_Sum data)
  rw [md5.length_Sum] at hlen
  have hsize : ∀ c ∈ (obfuscateMD5 md5 data).data, c.utf8Size = 1 :=
    fun c hc => (hchars c hc).2.1
  have hq : quote ∉ (obfuscateMD5 md5 data).data := fun hc => (hchars _ hc).2.2 rfl
  have hl : (obfuscateMD5 md5 data).length = 32 := hlen
  have hemail : obfuscateEmail md5 data
      = some (String.mk ((obfuscateMD5 md5 data).data.take 16) ++ "@google.com") := by
    have := sliceTo_ascii (obfuscateMD5 md5 data).data 16 hsize (by rw [← String.length, hl]; omega)
    simp only [obfuscateEmail]
    rw [show obfuscateMD5 md5 data = ⟨(obfuscateMD5 md5 data).data⟩ from rfl, this]
  have heq : ∀ e, obfuscateEmail md5 data = some e → e.length = 27 ∧ quote ∉ e.data := by
    intro e he
    rw [hemail] at he
    injection he with he
    subst he
    constructor
    · have h11 : "@google.com".length = 11 := by decide
      rw [String.length_append, h11]
      simp only [String.length, List.length_take]
      have : (obfuscateMD5 md5 data).data.length = 32 := hl
      omega
    · intro hmem
      simp only [String.data_append, List.mem_append] at hmem
      rcases hmem with hmem | hmem
      · exact hq (List.mem_of_mem_take hmem)
      · revert hmem; decide
  refine ⟨hl, fun c hc => (hchars c hc).1, ?_, hemail, heq, ?_⟩
  · rw [show obfuscateMD5 md5 data = ⟨(obfuscateMD5 md5 data).data⟩ from rfl,
      String.utf8ByteSize_mk, utf8Len_ascii _ hsize]
    exact hl
  · intro m column t hm ht
    constructor
    · rw [rowStrings_eq (some m) [column] _ rfl]
      simp [encode, hm]
    · apply count_quote_literal
      rcases ht with ht | ht
      · rw [ht]; exact hq
      · exact (heq _ ht).2

/-! ## The theorems at concrete inputs -/

/-- C1 at a row `(1, "a@x.com", NULL)` of `user(id, email, note)` with `redact`
registered for `email` and for `note`. -/
theorem createTableValues_cell_literal_witness :
    ∃ dataStrings : List String,
      rowStrings (some fun c => if c = "email" ∨ c = "note" then some redact else none)
          ["id", "email", "note"]
          [some { String := "1", Valid := true }, some { String := "a@x.com", Valid := true },
           none] = some dataStrings ∧
        dataStrings[0]? = some "'1'" ∧ dataStrings[1]? = some "'redacted'" ∧
        dataStrings[2]? = some "null" := by
  obtain ⟨ds, h, _, _, hc⟩ := createTableValues_cell_literal
    (some fun c => if c = "email" ∨ c = "note" then some redact else none)
    ["id", "email", "note"]
    { Columns := .ok ["id", "email", "note"], values := [some "1", some "a@x.com", none] }
    [some { String := "1", Valid := true }, some { String := "a@x.com", Valid := true }, none]
    rfl (by decide)
  refine ⟨ds, h, ?_, ?_, ?_⟩
  · exact ((hc 0 "id" rfl).2 "1" rfl).2 (Or.inr ⟨_, rfl, by simp⟩)
  · exact ((hc 1 "email" rfl).2 "a@x.com" rfl).1 _ redact rfl (by simp)
  · exact (hc 2 "note" rfl).1 rfl

/-- C2 at `twoEmailDB`: with `redact` registered for `user.email` and with no
obfuscation at all, the dump builds the same record for `customer`, whose
`email` stays raw, while the records of `user` differ. -/
theorem Dump_table_scoped_witness :
    (tableLoop twoEmailDB (exampleObfuscate redact) ["user", "customer"] []).1
        = some (.ok [ { Name := "user", SQL := "CREATE TABLE `user` (email text)",
                        Values := "('redacted')" },
                      { Name := "customer", SQL := "CREATE TABLE `customer` (email text)",
                        Values := "('b@y.com')" } ]) ∧
      (tableLoop twoEmailDB (fun _ => none) ["user", "customer"] []).1
        = some (.ok [ { Name := "user", SQL := "CREATE TABLE `user` (email text)",
                        Values := "('a@x.com')" },
                      { Name := "customer", SQL := "CREATE TABLE `customer` (email text)",
                        Values := "('b@y.com')" } ]) ∧
      ([ { Name := "user", SQL := "CREATE TABLE `user` (email text)", Values := "('redacted')" },
         { Name := "customer", SQL := "CREATE TABLE `customer` (email text)",
           Values := "('b@y.com')" } ] : List table)[1]?
        = ([ { Name := "user", SQL := "CREATE TABLE `user` (email text)",
               Values := "('a@x.com')" },
             { Name := "customer", SQL := "CREATE TABLE `customer` (email text)",
               Values := "('b@y.com')" } ] : List table)[1]? :=
  ⟨by decide, by decide,
    (Dump_table_scoped twoEmailDB (exampleObfuscate redact) (fun _ => none)
      ["user", "customer"] _ _ 1 "customer" (by decide) (by decide) rfl rfl).1⟩

/-- C3 at the table `user` of the example database. -/
theorem createTableValues_fragment_witness :
    (createTableValues exampleDB "user" (exampleObfuscate redact "user")).1
      = some ("('1','redacted')", none) := by
  have h := (createTableValues_fragment exampleDB "user" (exampleObfuscate redact "user")
    (sampleRows ["id", "email"] [[some "1", some "a@x.com"]]) ["id", "email"]
    (by decide) (by decide)
    (by simp [Rows.ReadsWell, sampleRows, Rows.ScanPtrs])).1
  rw [h]
  decide

/-- C4 at the table `empty_table` of the example database. -/
theorem tableBlock_insert_iff_values_witness :
    exampleEmpty.Values = "" ∧
      tableBlock exampleEmpty = blockHead exampleEmpty ++ disableKeysLine exampleEmpty ++ "\n"
        ++ enableKeysLine exampleEmpty ++ "UNLOCK TABLES;\n" :=
  have h := tableBlock_insert_iff_values exampleDB "empty_table" none
    (sampleRows ["id"] []) exampleEmpty redact (by decide) rfl (by decide)
  ⟨h.1, h.2.1⟩

/-- C5 at `zebraDB`, whose catalog lists `zebra` before `alpha`. -/
theorem Dump_table_order_witness :
    ∃ (serverVersion : String) (z a : table), z.Name = "zebra" ∧ a.Name = "alpha" ∧
      (Dumper.Dump exampleEnv (exampleDumper zebraDB) (fun _ => none) exampleFS).fs.files
          (dumpPath exampleEnv (exampleDumper zebraDB))
        = some { content := docHead version serverVersion ++ (tableBlock z ++ tableBlock a)
                   ++ docFoot exampleEnv.nowString,
                 IsDir := false } := by
  obtain ⟨sv, ts, hnames, _, hz⟩ := Dump_table_order exampleEnv (exampleDumper zebraDB)
    (fun _ => none) exampleFS examplePath (by decide)
  have hlist : (getTables (exampleDumper zebraDB).db).1 = (["zebra", "alpha"], none) := by decide
  rw [hlist] at hnames
  simp only [Prod.mk.injEq, and_true] at hnames
  obtain ⟨z, a, h1, h2, h3⟩ := hz hnames.symm
  exact ⟨sv, z, a, h1, h2, h3⟩

/-- C6 at `failingDB`: `user` is exported, `empty_table` fails, `orders` is never
asked for. -/
theorem Dump_all_or_nothing_witness :
    (Dumper.Dump exampleEnv (exampleDumper failingDB) (fun _ => none) exampleFS).ret
        = some (examplePath, some "Error 1146: Table 'app.empty_table' doesn't exist") ∧
      (Dumper.Dump exampleEnv (exampleDumper failingDB) (fun _ => none) exampleFS).queries
        = ["SELECT version()", "SHOW TABLES", "SHOW CREATE TABLE `user`", "SELECT * FROM `user`",
           "SHOW CREATE TABLE `empty_table`", "SELECT * FROM `empty_table`"] ∧
      (Dumper.Dump exampleEnv (exampleDumper failingDB) (fun _ => none) exampleFS).executed
        = false := by
  have h := Dump_all_or_nothing exampleEnv (exampleDumper failingDB) (fun _ => none) exampleFS
    "8.0.36" ["user"] ["orders"] "empty_table"
    "Error 1146: Table 'app.empty_table' doesn't exist"
    (by decide) (by decide) (by decide) (by decide)
    (by
      intro n hn
      simp only [List.mem_singleton] at hn
      subst hn
      exact ⟨{ Name := "user", SQL := "CREATE TABLE `user` (id int, email text)",
               Values := "('1','a@x.com')" }, by decide⟩)
    (by decide)
  exact ⟨h.1, h.2.1.trans (by decide), h.2.2.1⟩

/-- C7 at `mismatchDB`: the server answers for `user_old` when asked for
`user`. -/
theorem createTableSQL_mismatch_witness :
    (createTableSQL mismatchDB "user").1 = ("", some mismatchError) ∧
      (Dumper.Dump exampleEnv (exampleDumper mismatchDB) (fun _ => none) exampleFS).ret
        = some (examplePath, some mismatchError) ∧
      (Dumper.Dump exampleEnv (exampleDumper mismatchDB) (fun _ => none) exampleFS).executed
        = false := by
  have h := createTableSQL_mismatch exampleEnv (exampleDumper mismatchDB) (fun _ => none)
    exampleFS "8.0.36" [] ["empty_table"] "user"
    { String := "user_old", Valid := true }
    { String := "CREATE TABLE `user_old` (id int)", Valid := true }
    (by decide) (by decide) (by decide) (by decide) (by decide) (by decide)
    (by intro n hn; cases hn)
  exact ⟨h.2.1, h.2.2.2.1, h.2.2.2.2.1⟩

/-- C8, as stated, fails at `unreadableFS`: a file is at the computed path, yet
`Dump` returns the permission error of `os.Create`, not the `already exists`
error. -/
theorem Dump_already_exists_counterexample :
    unreadableFS.files (dumpPath exampleEnv (exampleDumper exampleDB))
        = some { content := "-- an older dump\n", IsDir := false } ∧
      (Dumper.Dump exampleEnv (exampleDumper exampleDB) (fun _ => none) unreadableFS).ret
        = some (examplePath,
            some "open dumps/app-2024.01.02_03.04.05.sql: permission denied") ∧
      (Dumper.Dump exampleEnv (exampleDumper exampleDB) (fun _ => none) unreadableFS).ret
        ≠ some (examplePath, some (alreadyExistsError "app-2024.01.02_03.04.05")) := by
  decide

/-- C8, amended, at `occupiedFS`. -/
theorem Dump_already_exists_witness :
    (Dumper.Dump exampleEnv (exampleDumper exampleDB) (fun _ => none) occupiedFS).ret
        = some (examplePath, some "Dump 'app-2024.01.02_03.04.05' already exists.") ∧
      (Dumper.Dump exampleEnv (exampleDumper exampleDB) (fun _ => none) occupiedFS).queries = [] ∧
      (Dumper.Dump exampleEnv (exampleDumper exampleDB) (fun _ => none) occupiedFS).fs.files
          examplePath
        = some { content := "-- an older dump\n", IsDir := false } := by
  have h := Dump_already_exists exampleEnv (exampleDumper exampleDB) (fun _ => none) occupiedFS
    { content := "-- an older dump\n", IsDir := false } (by decide) rfl rfl
  rw [h.1]
  decide

/-- C9, as stated, fails at `brokenVersionDB`: the version query fails,
`getServerVersion` returns the error and `Dump` aborts with it. -/
theorem getServerVersion_counterexample :
    (getServerVersion brokenVersionDB).1 = ("", some "driver: bad connection") ∧
      (Dumper.Dump exampleEnv (exampleDumper brokenVersionDB) (fun _ => none) exampleFS).ret
        = some (examplePath, some "driver: bad connection") ∧
      (Dumper.Dump exampleEnv (exampleDumper brokenVersionDB) (fun _ => none) exampleFS).executed
        = false := by
  decide

/-- C9, amended, at `nullVersionDB`. -/
theorem getServerVersion_null_or_error_witness :
    (getServerVersion nullVersionDB).1 = ("", none) ∧
      ∃ ts : List table,
        (Dumper.Dump exampleEnv (exampleDumper nullVersionDB) (fun _ => none) exampleFS).fs.files
            (dumpPath exampleEnv (exampleDumper nullVersionDB))
          = some { content := docHead version "" ++ String.join (ts.map tableBlock)
                     ++ docFoot exampleEnv.nowString,
                   IsDir := false } := by
  have h := (getServerVersion_null_or_error exampleEnv (exampleDumper nullVersionDB)
    (fun _ => none) exampleFS (by decide) (by decide)).1 { String := "", Valid := false }
    (by decide) rfl
  exact ⟨h.1, h.2.2 examplePath (by decide)⟩

/-- C10 at the digest of the empty input. -/
theorem obfuscate_output_shape_witness :
    obfuscateMD5 emptyDigestMd5 "" = "d41d8cd98f00b204e9800998ecf8427e" ∧
      obfuscateEmail emptyDigestMd5 "" = some "d41d8cd98f00b204@google.com" :=
  ⟨by decide, (obfuscate_output_shape emptyDigestMd5 "").2.2.2.1.trans (by decide)⟩

/-- At `closeFailingDB` the NULL version is scanned but closing the row fails:
`getServerVersion` returns that error and `Dump` aborts with it. -/
theorem example_version_close_error :
    (getServerVersion closeFailingDB).1 = ("", some "driver: bad connection") ∧
      (Dumper.Dump exampleEnv (exampleDumper closeFailingDB) (fun _ => none) exampleFS).ret
        = some (examplePath, some "driver: bad connection") := by
  decide

end MysqlDump
